import Mathlib

/-!
Verification of the orchestra-api Workshop translation layer, directory
client, pagination and token issuance, as a shallow embedding of the
Python source (`api/services/workshop_service.py`, `api/routes/workshops.py`,
`api/core/auth.py`, `api/routes/auth.py`, `api/models/workshop.py`).

Modelling conventions:
* JSON wire documents are a `Json` inductive (null / string / object /
  array); Python `dict.get`, `in`, truthiness and iteration are embedded
  with their CPython semantics (calling `.get` on a non-dict raises, so
  those paths return an error).
* Pydantic model construction is embedded as validation of the keyword
  arguments exactly as written in the source, under the repository's
  pydantic-v2 setup (config.py imports `pydantic_settings` and calls
  `model_dump`): required `str` fields reject `None` and non-strings
  (ValidationError), `Optional[str]` fields accept `None`, and
  `Dict[str, str]` fields require string-valued objects. Fields declared
  with an alias (`cpuRequest`, `memoryRequest`, `storageClass`,
  `lastTransitionTime`, `createdAt`, `expiresAt`) are populatable only via
  the alias (`populate_by_name` is nowhere enabled), so the service's
  by-field-name keyword arguments for them are silently ignored: the
  defaulted ones always land on their defaults ("500m", "1Gi", `None`),
  and the ones without a default (`WorkshopCondition.last_transition_time`,
  `WorkshopStatus.created_at`/`expires_at`) are required, making every
  construction of those two models raise ValidationError.
* `datetime.fromisoformat` is embedded following the pure-Python
  CPython (< 3.11) parser: strict `YYYY-MM-DD`, optional one-character
  separator then `HH[:MM[:SS[.fff[fff]]]]`, optional `+HH:MM[:SS[.ffffff]]`
  timezone; every parse failure is a `ValueError`, i.e. `none` here.
* The external Kubernetes custom-object API and the JWT library are
  collaborators: the former is a parameter producing either a document or
  an `ApiException` with a status code; the latter is embedded with PyJWT
  semantics (signature check against a deterministic MAC, then the expiry
  check `exp <= now` raising `ExpiredSignatureError`). PyJWT exports no
  `jwt.JWTError`, so on any non-expiry decode failure the program's
  `except jwt.JWTError` clause itself raises AttributeError: invalid
  tokens surface as an unhandled AttributeError, never as a 401.
* Python `datetime.utcnow()` is an explicit `now : Int` parameter
  (seconds); `timedelta` arguments are seconds, and `timedelta(0)` is
  falsy exactly like in Python.
-/

/-- JSON-like wire value: what the Kubernetes custom-object API exchanges. -/
inductive Json where
  | null : Json
  | str : String → Json
  | obj : List (String × Json) → Json
  | arr : List Json → Json
deriving Repr

/-- First binding of a key in an object's field list (Python dict lookup). -/
def lookupField : List (String × Json) → String → Option Json
  | [], _ => none
  | (k, v) :: rest, key => if k = key then some v else lookupField rest key

/-- Python truthiness of a JSON value. -/
def Json.truthy : Json → Bool
  | .null => false
  | .str s => !s.isEmpty
  | .obj fs => !fs.isEmpty
  | .arr xs => !xs.isEmpty

/-- Python `key in d` for a JSON object (`False` on this code path only
arises for dicts; membership in other values is never reached because a
`.get` on the same value has already raised). -/
def Json.hasKey : Json → String → Bool
  | .obj fs, k => fs.any (fun p => p.1 == k)
  | _, _ => false

/-- Errors a mapper call can raise. -/
inductive PyError where
  | validation : PyError
  | valueError : PyError
  | attrError : PyError
  | typeError : PyError
deriving Repr, DecidableEq

/-- Python `d.get(key)` where `d` must be a dict (AttributeError otherwise). -/
def pyGet (j : Json) (k : String) : Except PyError (Option Json) :=
  match j with
  | .obj fs => .ok (lookupField fs k)
  | _ => .error .attrError

/-- Python `d.get(key, default)`. -/
def pyGetD (j : Json) (k : String) (d : Json) : Except PyError Json :=
  (pyGet j k).map (fun v => v.getD d)

/-- View a JSON value as a dict's field list (AttributeError otherwise);
used where the source immediately calls `.get` on the value. -/
def asDict (j : Json) : Except PyError (List (String × Json)) :=
  match j with
  | .obj fs => .ok fs
  | _ => .error .attrError

/-- Python `for x in v`: lists yield elements, strings their characters,
dicts their keys; `None` raises TypeError. -/
def pyIter : Json → Except PyError (List Json)
  | .arr xs => .ok xs
  | .str s => .ok (s.data.map (fun c => Json.str (String.singleton c)))
  | .obj fs => .ok (fs.map (fun p => Json.str p.1))
  | .null => .error .typeError

/-- Pydantic required `str` field: rejects a missing value, `None`, and
non-strings. -/
def vReqStr (v : Option Json) : Except PyError String :=
  match v with
  | some (.str s) => .ok s
  | _ => .error .validation

/-- Pydantic `str` field given an already-present value (possibly a default
supplied by the caller). -/
def vStr (j : Json) : Except PyError String :=
  match j with
  | .str s => .ok s
  | _ => .error .validation

/-- Pydantic `Optional[str]` field. -/
def vOptStr (v : Option Json) : Except PyError (Option String) :=
  match v with
  | none => .ok none
  | some .null => .ok none
  | some (.str s) => .ok (some s)
  | some _ => .error .validation

/-- Pydantic `Dict[str, str]` field: a JSON object with string values. -/
def vStrDict (j : Json) : Except PyError (List (String × String)) :=
  match j with
  | .obj fs => fs.mapM (fun p =>
      match p.2 with
      | .str s => .ok (p.1, s)
      | _ => .error PyError.validation)
  | _ => .error .validation

/-- Python `datetime` value as produced by `datetime.fromisoformat`:
calendar fields plus an optional fixed-offset timezone (total offset in
microseconds; `none` is a naive datetime). -/
structure PyDatetime where
  year : Nat
  month : Nat
  day : Nat
  hour : Nat
  minute : Nat
  second : Nat
  microsecond : Nat
  tzOffsetUs : Option Int
deriving Repr, DecidableEq

/-- Decimal value of an ASCII digit character. -/
def digitVal (c : Char) : Nat := c.toNat - 48

/-- Two mandatory ASCII digits, returning the rest of the input
(CPython `int(tstr[pos:pos+2])` inside `_parse_hh_mm_ss_ff`). -/
def twoDigits : List Char → Option (Nat × List Char)
  | c1 :: c2 :: rest =>
      if c1.isDigit && c2.isDigit then some (digitVal c1 * 10 + digitVal c2, rest)
      else none
  | _ => none

/-- Number of days in a month, with the Gregorian leap-year rule. -/
def daysInMonth (year month : Nat) : Nat :=
  if month = 2 then
    if year % 4 = 0 && (year % 100 ≠ 0 || year % 400 = 0) then 29 else 28
  else if month = 4 || month = 6 || month = 9 || month = 11 then 30
  else 31

/-- CPython `_parse_isoformat_date`: strict `YYYY-MM-DD` over exactly ten
characters, validated by the `date` constructor. -/
def parseIsoDate (cs : List Char) : Option (Nat × Nat × Nat) :=
  match cs with
  | [y1, y2, y3, y4, s1, m1, m2, s2, d1, d2] =>
      if y1.isDigit && y2.isDigit && y3.isDigit && y4.isDigit &&
         (s1 = '-' : Bool) && m1.isDigit && m2.isDigit &&
         (s2 = '-' : Bool) && d1.isDigit && d2.isDigit then
        let y := digitVal y1 * 1000 + digitVal y2 * 100 + digitVal y3 * 10 + digitVal y4
        let m := digitVal m1 * 10 + digitVal m2
        let d := digitVal d1 * 10 + digitVal d2
        if 1 ≤ y && 1 ≤ m && m ≤ 12 && 1 ≤ d && d ≤ daysInMonth y m then
          some (y, m, d)
        else none
      else none
  | _ => none

/-- CPython `_parse_hh_mm_ss_ff`: `HH[:MM[:SS[.fff[fff]]]]`, the fraction
being exactly three or six digits. -/
def parseHhMmSsFf (cs : List Char) : Option (Nat × Nat × Nat × Nat) := do
  let (h, r1) ← twoDigits cs
  match r1 with
  | [] => some (h, 0, 0, 0)
  | ':' :: r2 =>
      let (m, r3) ← twoDigits r2
      match r3 with
      | [] => some (h, m, 0, 0)
      | ':' :: r4 =>
          let (s, r5) ← twoDigits r4
          match r5 with
          | [] => some (h, m, s, 0)
          | '.' :: r6 =>
              if r6.all Char.isDigit && r6.length = 3 then
                some (h, m, s, (r6.foldl (fun a c => a * 10 + digitVal c) 0) * 1000)
              else if r6.all Char.isDigit && r6.length = 6 then
                some (h, m, s, r6.foldl (fun a c => a * 10 + digitVal c) 0)
              else none
          | _ => none
      | _ => none
  | _ => none

/-- CPython `_parse_isoformat_time`: split the time string at the first
`-` (or, failing that, the first `+`), parse the clock part, and require a
timezone suffix of length 5, 8 or 15; an all-zero offset is UTC, and a
nonzero offset must be strictly within a day (the `timezone` constructor). -/
def parseIsoTime (cs : List Char) : Option (Nat × Nat × Nat × Nat × Option Int) := do
  if cs.length < 2 then none
  else
    let tzIdx : Option Nat :=
      match cs.findIdx? (fun c => c = '-') with
      | some i => some i
      | none => cs.findIdx? (fun c => c = '+')
    match tzIdx with
    | none => do
        let (h, m, s, us) ← parseHhMmSsFf cs
        some (h, m, s, us, none)
    | some i => do
        let timestr := cs.take i
        let tzstr := cs.drop (i + 1)
        let (h, m, s, us) ← parseHhMmSsFf timestr
        if tzstr.length = 5 || tzstr.length = 8 || tzstr.length = 15 then do
          let (th, tm, ts, tus) ← parseHhMmSsFf tzstr
          if th = 0 && tm = 0 && ts = 0 && tus = 0 then
            some (h, m, s, us, some 0)
          else
            let sign : Int := if cs.get? i = some '-' then -1 else 1
            let offUs : Int := sign * ((th * 3600 + tm * 60 + ts) * 1000000 + tus)
            if offUs < 86400000000 && -86400000000 < offUs then
              some (h, m, s, us, some offUs)
            else none
        else none

/-- CPython (< 3.11) `datetime.fromisoformat` over the characters of the
input: ten-character date, then an arbitrary one-character separator and a
time string; field ranges are enforced by the `datetime` constructor.
Every failure mode is a `ValueError`, i.e. `none`. -/
def fromisoformat (cs : List Char) : Option PyDatetime := do
  let (y, mo, d) ← parseIsoDate (cs.take 10)
  if cs.length = 10 then
    some ⟨y, mo, d, 0, 0, 0, 0, none⟩
  else if cs.length ≥ 12 then do
    let (h, mi, s, us, tz) ← parseIsoTime (cs.drop 11)
    if h ≤ 23 && mi ≤ 59 && s ≤ 59 then
      some ⟨y, mo, d, h, mi, s, us, tz⟩
    else none
  else none

/-- WorkshopService._parse_datetime: `None`/empty input yields `None`, a
trailing literal `Z` is replaced by `+00:00`, and any `ValueError` from
`datetime.fromisoformat` is swallowed into `None`. -/
def parse_datetime (dt_str : Option String) : Option PyDatetime :=
  match dt_str with
  | none => none
  | some s =>
      if s.data = [] then none
      else
        let cs := if s.data.getLast? = some 'Z'
                  then s.data.dropLast ++ "+00:00".data
                  else s.data
        fromisoformat cs

/-- api.models.workshop.WorkshopResources (pydantic). -/
structure WorkshopResources where
  cpu : String
  memory : String
  cpu_request : String
  memory_request : String
deriving Repr, DecidableEq

/-- api.models.workshop.WorkshopStorage (pydantic). -/
structure WorkshopStorage where
  size : String
  storage_class : Option String
deriving Repr, DecidableEq

/-- api.models.workshop.WorkshopIngress (pydantic); `annotations` is a
`Dict[str, str]` kept in insertion order. -/
structure WorkshopIngress where
  host : Option String
  annotations : List (String × String)
deriving Repr, DecidableEq

/-- api.models.workshop.WorkshopCreate (pydantic): the domain Workshop spec. -/
structure WorkshopCreate where
  name : String
  duration : String
  image : String
  resources : WorkshopResources
  storage : Option WorkshopStorage
  ingress : Option WorkshopIngress
deriving Repr, DecidableEq

/-- api.models.workshop.WorkshopPhase: the six lifecycle phases. -/
inductive WorkshopPhase where
  | pending | creating | ready | running | terminating | failed
deriving Repr, DecidableEq

/-- The `WorkshopPhase(value)` enum call: `ValueError` outside the six
wire strings. -/
def parsePhase (j : Json) : Except PyError WorkshopPhase :=
  match j with
  | .str "Pending" => .ok .pending
  | .str "Creating" => .ok .creating
  | .str "Ready" => .ok .ready
  | .str "Running" => .ok .running
  | .str "Terminating" => .ok .terminating
  | .str "Failed" => .ok .failed
  | _ => .error .valueError

/-- api.models.workshop.WorkshopCondition (pydantic). -/
structure WorkshopCondition where
  type : String
  status : String
  reason : Option String
  message : Option String
  last_transition_time : Option PyDatetime
deriving Repr, DecidableEq

/-- api.models.workshop.WorkshopStatus (pydantic). -/
structure WorkshopStatus where
  phase : WorkshopPhase
  url : Option String
  created_at : Option PyDatetime
  expires_at : Option PyDatetime
  conditions : List WorkshopCondition
deriving Repr, DecidableEq

/-- api.models.workshop.WorkshopResponse (pydantic). -/
structure WorkshopResponse where
  name : String
  nspace : String
  spec : WorkshopCreate
  status : Option WorkshopStatus
  created_at : Option PyDatetime
  updated_at : Option PyDatetime
deriving Repr, DecidableEq

/-- Python truthiness of an `Optional[str]` value (`None` and `""` falsy). -/
def optStrTruthy : Option String → Bool
  | none => false
  | some s => !s.isEmpty

/-- WorkshopService._to_kubernetes_crd: build the wire document for a spec,
with the fixed labels, camelCase resource keys, and optional `storage` /
`ingress` blocks whose falsy sub-fields are omitted. -/
def to_kubernetes_crd (workshop : WorkshopCreate) (nspace : String) : Json :=
  let specFields : List (String × Json) :=
    [("name", .str workshop.name),
     ("duration", .str workshop.duration),
     ("image", .str workshop.image),
     ("resources", .obj
       [("cpu", .str workshop.resources.cpu),
        ("memory", .str workshop.resources.memory),
        ("cpuRequest", .str workshop.resources.cpu_request),
        ("memoryRequest", .str workshop.resources.memory_request)])]
  let specFields := specFields ++
    (match workshop.storage with
     | some st =>
         [("storage", Json.obj ([("size", Json.str st.size)] ++
            (match st.storage_class with
             | some sc => if !sc.isEmpty then [("storageClass", Json.str sc)] else []
             | none => [])))]
     | none => [])
  let specFields := specFields ++
    (match workshop.ingress with
     | some ing =>
         [("ingress", Json.obj (
            (match ing.host with
             | some h => if !h.isEmpty then [("host", Json.str h)] else []
             | none => []) ++
            (if !ing.annotations.isEmpty then
               [("annotations", Json.obj (ing.annotations.map (fun p => (p.1, Json.str p.2))))]
             else [])))]
     | none => [])
  Json.obj
    [("apiVersion", .str "orchestra.io/v1"),
     ("kind", .str "Workshop"),
     ("metadata", .obj
       [("name", .str workshop.name),
        ("namespace", .str nspace),
        ("labels", .obj
          [("app", .str "orchestra-operator"),
           ("managed-by", .str "orchestra-api")])]),
     ("spec", .obj specFields)]

/-- WorkshopService._parse_spec: parse a workshop spec from the CRD spec
block. `cpu_request`, `memory_request` and `storage_class` are passed as
by-field-name keyword arguments while those fields are populatable only
via their aliases (`cpuRequest`/`memoryRequest`/`storageClass`,
`populate_by_name` unset), so pydantic ignores the kwargs — the wire
values are read (the `.get` calls still require dicts) but never
validated, and the fields always land on their defaults `"500m"`,
`"1Gi"`, `None`. Pydantic validation of `WorkshopCreate` (required
`name`) happens after the optional blocks. -/
def parse_spec (spec : Json) : Except PyError WorkshopCreate := do
  let fs ← asDict spec
  let resJ := (lookupField fs "resources").getD (.obj [])
  let rfs ← asDict resJ
  let cpu ← vStr ((lookupField rfs "cpu").getD (.str "1"))
  let memory ← vStr ((lookupField rfs "memory").getD (.str "2Gi"))
  let resources : WorkshopResources := ⟨cpu, memory, "500m", "1Gi"⟩
  let storage ←
    if (Json.obj fs).hasKey "storage" then do
      let sfs ← asDict ((lookupField fs "storage").getD .null)
      let size ← vStr ((lookupField sfs "size").getD (.str "10Gi"))
      pure (some (⟨size, none⟩ : WorkshopStorage))
    else pure none
  let ingress ←
    if (Json.obj fs).hasKey "ingress" then do
      let ifs ← asDict ((lookupField fs "ingress").getD .null)
      let host ← vOptStr (lookupField ifs "host")
      let annotations ← vStrDict ((lookupField ifs "annotations").getD (.obj []))
      pure (some (⟨host, annotations⟩ : WorkshopIngress))
    else pure none
  let name ← vReqStr (lookupField fs "name")
  let duration ← vStr ((lookupField fs "duration").getD (.str "4h"))
  let image ← vStr ((lookupField fs "image").getD (.str "rocker/rstudio:latest"))
  pure ⟨name, duration, image, resources, storage, ingress⟩

/-- The `self._parse_datetime(value)` call sites inside
`_from_kubernetes_crd`, where the argument is a raw JSON value: a falsy
value yields `None`, a non-empty string is parsed, and `.endswith` on any
other truthy value raises AttributeError. -/
def parse_datetime_j (v : Option Json) : Except PyError (Option PyDatetime) :=
  match v with
  | none => .ok none
  | some j =>
      if !j.truthy then .ok none
      else match j with
           | .str s => .ok (parse_datetime (some s))
           | _ => .error .attrError

/-- One iteration of the conditions loop: the `cond.get(...)` calls
require a dict, after which the `WorkshopCondition(...)` construction
always raises ValidationError — `last_transition_time` has the alias
`lastTransitionTime`, no default and `populate_by_name` unset, so the
by-field-name kwarg is ignored and the required alias field is reported
missing. -/
def parseCondition (cond : Json) : Except PyError WorkshopCondition := do
  let _ ← asDict cond
  Except.error PyError.validation

/-- WorkshopService._from_kubernetes_crd: status block first — a truthy
status must be a dict, its conditions are iterated (the first condition,
if any, raises as in `parseCondition`), the `WorkshopPhase(...)` enum call
and the two `_parse_datetime` argument evaluations run next, and then the
`WorkshopStatus(...)` construction itself always raises ValidationError:
`created_at`/`expires_at` carry the aliases `createdAt`/`expiresAt`, have
no default and `populate_by_name` is unset, so the by-field-name kwargs
are ignored and the required alias fields are reported missing. Only a
falsy (absent or empty) status yields a response, with `status = None`.
The `metadata.get` calls precede `_parse_spec`, and pydantic validation
of the required `name` / `namespace` strings comes last. -/
def from_kubernetes_crd (crd : Json) : Except PyError WorkshopResponse := do
  let cfs ← asDict crd
  let metadata := (lookupField cfs "metadata").getD (.obj [])
  let spec := (lookupField cfs "spec").getD (.obj [])
  let status := (lookupField cfs "status").getD (.obj [])
  let workshop_status ←
    if status.truthy then do
      let sfs ← asDict status
      let condsJ := (lookupField sfs "conditions").getD (.arr [])
      let condItems ← pyIter condsJ
      let _ ← condItems.mapM parseCondition
      let _ ← parsePhase ((lookupField sfs "phase").getD (.str "Pending"))
      let _ ← parse_datetime_j (lookupField sfs "createdAt")
      let _ ← parse_datetime_j (lookupField sfs "expiresAt")
      (Except.error PyError.validation : Except PyError (Option WorkshopStatus))
    else pure none
  let mfs ← asDict metadata
  let nameJ := lookupField mfs "name"
  let namespaceJ := lookupField mfs "namespace"
  let spec ← parse_spec spec
  let created_at ← parse_datetime_j (lookupField mfs "creationTimestamp")
  let updated_at ← parse_datetime_j (lookupField mfs "resourceVersion")
  let name ← vReqStr nameJ
  let nspace ← vReqStr namespaceJ
  pure ⟨name, nspace, spec, workshop_status, created_at, updated_at⟩

/-- Outcome of one call to the external Kubernetes custom-object API:
either a returned document or a raised `ApiException` carrying a status
code. -/
inductive KubeResult where
  | ok : Json → KubeResult
  | apiError : Nat → KubeResult

/-- Errors surfacing from a WorkshopService operation: a propagated
`ApiException` or a mapper/validation failure. -/
inductive SvcError where
  | py : PyError → SvcError
  | api : Nat → SvcError
deriving Repr, DecidableEq

/-- WorkshopService.get_workshop: a 404 `ApiException` becomes `None`, any
other `ApiException` is re-raised, and a mapping failure propagates
uncaught. The external API is the `backend` parameter, applied to the
name and namespace of the call. -/
def get_workshop (backend : String → String → KubeResult)
    (name nspace : String) : Except SvcError (Option WorkshopResponse) :=
  match backend name nspace with
  | .ok doc =>
      match from_kubernetes_crd doc with
      | .ok w => .ok (some w)
      | .error e => .error (.py e)
  | .apiError s => if s = 404 then .ok none else .error (.api s)

/-- WorkshopService.delete_workshop: `True` on success, `False` on a 404
`ApiException`, any other `ApiException` re-raised. -/
def delete_workshop (backend : String → String → KubeResult)
    (name nspace : String) : Except SvcError Bool :=
  match backend name nspace with
  | .ok _ => .ok true
  | .apiError s => if s = 404 then .ok false else .error (.api s)

/-- WorkshopService.list_workshops: fetch the full list, then map each
item of `result.get("items", [])` through `_from_kubernetes_crd` in order,
appending to the result; the first failure aborts the whole call. -/
def list_workshops (backend : KubeResult) :
    Except SvcError (List WorkshopResponse) :=
  match backend with
  | .apiError s => .error (.api s)
  | .ok result =>
      match (do
        let fs ← asDict result
        let itemsJ := (lookupField fs "items").getD (.arr [])
        let items ← pyIter itemsJ
        items.mapM from_kubernetes_crd : Except PyError (List WorkshopResponse)) with
      | .ok ws => .ok ws
      | .error e => .error (.py e)

/-- api.models.workshop.WorkshopList: the paginated response model. -/
structure WorkshopList where
  items : List WorkshopResponse
  total : Nat
  page : Nat
  size : Nat
deriving Repr, DecidableEq

/-- routes/workshops.list_workshops, after the service returned the full
ordered list: in-memory slice `workshops[(page-1)*size : (page-1)*size + size]`
with `total` the unwindowed count. -/
def list_workshops_route (workshops : List WorkshopResponse)
    (page size : Nat) : WorkshopList :=
  let start := (page - 1) * size
  let paginated := (workshops.drop start).take size
  { items := paginated, total := workshops.length, page := page, size := size }

/-- JWT claims dictionary as used by this service: the keys written by
`routes/auth.py` plus the `exp`/`type` claims added at signing time.
Absent keys are `none`. -/
structure JwtPayload where
  sub : Option String
  user_id : Option String
  email : Option String
  name : Option String
  avatar_url : Option String
  scopes : Option (List String)
  typ : Option String
  exp : Option Int
deriving Repr, DecidableEq

/-- api.core.config.Settings: the fields the token issuer reads. -/
structure Settings where
  secret_key : String
  access_token_expire_minutes : Int
  refresh_token_expire_days : Int
deriving Repr, DecidableEq

/-- Settings() with the defaults from api/core/config.py. -/
def defaultSettings : Settings :=
  { secret_key := "your-secret-key-change-in-production"
  , access_token_expire_minutes := 30
  , refresh_token_expire_days := 7 }

/-- Deterministic string hash standing in for the HMAC computed by
`jwt.encode`; only its determinism matters for verification. -/
def strHash (s : String) : Nat :=
  s.data.foldl (fun h c => h * 131 + c.toNat + 1) 7

/-- Canonical serialization of a claims dictionary, fed to the MAC. -/
def payloadString (p : JwtPayload) : String :=
  let f : Option String → String := fun v => match v with
    | none => "_"
    | some s => "s" ++ s
  f p.sub ++ "|" ++ f p.user_id ++ "|" ++ f p.email ++ "|" ++ f p.name ++ "|"
    ++ f p.avatar_url ++ "|"
    ++ (match p.scopes with
        | none => "_"
        | some l => "l" ++ String.intercalate "," l) ++ "|"
    ++ f p.typ ++ "|"
    ++ (match p.exp with | none => "_" | some e => "e" ++ toString e)

/-- Signature over a payload with a key, as computed by `jwt.encode`. -/
def macSign (key : String) (p : JwtPayload) : Nat :=
  strHash (key ++ "|" ++ payloadString p)

/-- A serialized JWT: its claims plus the attached signature value. -/
structure Token where
  payload : JwtPayload
  sig : Nat
deriving Repr, DecidableEq

/-- `jwt.encode(payload, key, algorithm)`. -/
def jwt_encode (p : JwtPayload) (key : String) : Token :=
  ⟨p, macSign key p⟩

/-- The two failure modes of `jwt.decode`. -/
inductive JwtFailure where
  | expired | invalid
deriving Repr, DecidableEq

/-- `jwt.decode(token, key, algorithms)` at time `now` (PyJWT): signature
check first (any mismatch is an invalid-token error), then the registered
`exp` claim — expired when `exp <= now`. -/
def jwt_decode (t : Token) (key : String) (now : Int) :
    Except JwtFailure JwtPayload :=
  if t.sig ≠ macSign key t.payload then .error .invalid
  else match t.payload.exp with
    | some e => if e ≤ now then .error .expired else .ok t.payload
    | none => .ok t.payload

/-- Failure surfacing from the auth layer: an HTTPException, or the
AttributeError raised when an except clause names the non-existent
`jwt.JWTError` attribute. -/
inductive AuthError where
  | http : Nat → String → AuthError
  | attrError : AuthError
deriving Repr, DecidableEq

/-- api.core.auth.verify_token: an `ExpiredSignatureError` is caught and
turned into the 401 "Token has expired" response, but the second except
clause reads `jwt.JWTError`, an attribute PyJWT does not export — so for
every other decode failure evaluating the handler raises AttributeError,
which propagates; the 401 "Could not validate credentials" response is
unreachable. -/
def verify_token (settings : Settings) (t : Token) (now : Int) :
    Except AuthError JwtPayload :=
  match jwt_decode t settings.secret_key now with
  | .ok p => .ok p
  | .error .expired => .error (.http 401 "Token has expired")
  | .error .invalid => .error .attrError

/-- Python truthiness of an optional `timedelta` given in seconds:
`None` and `timedelta(0)` are falsy. -/
def tdTruthy : Option Int → Bool
  | none => false
  | some d => d ≠ 0

/-- api.core.auth.create_access_token: `expires_delta` is used only when
truthy (`timedelta(0)` falls back to the configured default), and the
`exp` and `type="access"` claims are stamped before signing. -/
def create_access_token (settings : Settings) (data : JwtPayload)
    (expires_delta : Option Int) (now : Int) : Token :=
  let expire :=
    if tdTruthy expires_delta then now + expires_delta.getD 0
    else now + settings.access_token_expire_minutes * 60
  jwt_encode { data with exp := some expire, typ := some "access" }
    settings.secret_key

/-- api.core.auth.create_refresh_token: fixed refresh window and
`type="refresh"`. -/
def create_refresh_token (settings : Settings) (data : JwtPayload)
    (now : Int) : Token :=
  jwt_encode
    { data with exp := some (now + settings.refresh_token_expire_days * 86400),
                typ := some "refresh" }
    settings.secret_key

/-- An empty claims dictionary. -/
def emptyPayload : JwtPayload :=
  ⟨none, none, none, none, none, none, none, none⟩

/-- routes/auth.refresh_token, body of the `try`: verify, reject when the
`type` claim is not `"refresh"`, then issue an access token from
`{"sub": payload["sub"]}` alone (KeyError when `sub` is absent). -/
def refresh_route_inner (settings : Settings) (t : Token) (now : Int) :
    Except AuthError Token := do
  let payload ← verify_token settings t now
  if payload.typ ≠ some "refresh" then
    Except.error (.http 401 "Invalid token type")
  else
    match payload.sub with
    | none => Except.error (.http 500 "KeyError")
    | some sub =>
        pure (create_access_token settings { emptyPayload with sub := some sub }
          none now)

/-- routes/auth.refresh_token: the surrounding `except Exception` collapses
every failure (including the inner HTTPExceptions) into a single
401 "Invalid refresh token". -/
def refresh_route (settings : Settings) (t : Token) (now : Int) :
    Except AuthError Token :=
  match refresh_route_inner settings t now with
  | .ok tok => .ok tok
  | .error _ => .error (.http 401 "Invalid refresh token")

deriving instance DecidableEq for Except

/-- Accessor for statements: a top-level key of a wire document. -/
def topLookup (j : Json) (k : String) : Option Json :=
  match j with
  | .obj fs => lookupField fs k
  | _ => none

/-- Accessor for statements: the `spec` block of a wire document (empty
object when absent, as in `crd.get("spec", {})`). -/
def crdSpecBlock (j : Json) : Json :=
  match j with
  | .obj fs => (lookupField fs "spec").getD (.obj [])
  | _ => .null

/-- Accessor for statements: `metadata.resourceVersion` of a wire document
under the same `crd.get("metadata", {})` defaulting as the mapper. -/
def crdResourceVersion (j : Json) : Option Json :=
  match j with
  | .obj fs =>
      match (lookupField fs "metadata").getD (.obj []) with
      | .obj mfs => lookupField mfs "resourceVersion"
      | _ => none
  | _ => none

/-- C3: for every name and namespace, when the external custom-object API
signals 404, `get` returns `None` and `delete` returns `False` rather than
raising; every non-404 `ApiException` is propagated by both. -/
theorem notfound_distinction_get_delete
    (backend : String → String → KubeResult) (name nspace : String) :
    (backend name nspace = .apiError 404 →
        get_workshop backend name nspace = .ok none
      ∧ delete_workshop backend name nspace = .ok false)
  ∧ ∀ s, s ≠ 404 → backend name nspace = .apiError s →
        get_workshop backend name nspace = .error (.api s)
      ∧ delete_workshop backend name nspace = .error (.api s) := by
  constructor
  · intro h
    constructor <;> simp [get_workshop, delete_workshop, h]
  · intro s hs h
    constructor <;> simp [get_workshop, delete_workshop, h, hs]

/-- Witness for C3 at a backend that signals 404 and one that fails
with 500. -/
theorem notfound_distinction_witness :
    get_workshop (fun _ _ => .apiError 404) "missing" "default" = .ok none
  ∧ delete_workshop (fun _ _ => .apiError 404) "missing" "default" = .ok false
  ∧ get_workshop (fun _ _ => .apiError 500) "missing" "default" = .error (.api 500)
  ∧ delete_workshop (fun _ _ => .apiError 500) "missing" "default" = .error (.api 500) := by
  have h4 := (notfound_distinction_get_delete
    (fun _ _ => .apiError 404) "missing" "default").1 rfl
  have h5 := (notfound_distinction_get_delete
    (fun _ _ => .apiError 500) "missing" "default").2 500 (by decide) rfl
  exact ⟨h4.1, h4.2, h5.1, h5.2⟩

/-- C4: the list route windows the full ordered result to
`[(page-1)*size, page*size)` (clamped to the end) and reports the full
count as `total`. -/
theorem pagination_window_total (ws : List WorkshopResponse) (page size : Nat)
    (hp : 1 ≤ page) (hs1 : 1 ≤ size) (hs2 : size ≤ 100) :
    (list_workshops_route ws page size).items
        = (ws.drop ((page - 1) * size)).take size
  ∧ (list_workshops_route ws page size).total = ws.length
  ∧ (list_workshops_route ws page size).items.length
        = min size (ws.length - (page - 1) * size)
  ∧ ∀ i, i < (list_workshops_route ws page size).items.length →
      (list_workshops_route ws page size).items[i]? = ws[(page - 1) * size + i]? := by
  refine ⟨rfl, rfl, ?_, ?_⟩
  · simp [list_workshops_route]
  · intro i hi
    have hisize : i < size := by
      simp [list_workshops_route] at hi
      omega
    simp [list_workshops_route, List.getElem?_take, hisize, List.getElem?_drop]

/-- Placeholder spec used to build concrete workshop lists. -/
def wDefaultSpec : WorkshopCreate :=
  ⟨"w", "4h", "rocker/rstudio:latest", ⟨"1", "2Gi", "500m", "1Gi"⟩, none, none⟩

/-- A concrete list of 120 distinct workshops. -/
def ws120 : List WorkshopResponse :=
  (List.range 120).map (fun i => ⟨toString i, "default", wDefaultSpec, none, none, none⟩)

/-- Witness for C4: 120 items, page 2, size 50 give the window `[50,100)`
and `total = 120`. -/
theorem pagination_window_witness :
    (list_workshops_route ws120 2 50).items = (ws120.drop 50).take 50
  ∧ (list_workshops_route ws120 2 50).total = 120 := by
  have h := pagination_window_total ws120 2 50 (by decide) (by decide) (by decide)
  refine ⟨by simpa using h.1, ?_⟩
  rw [h.2.1]
  simp [ws120]

/-- Flipping any single bit of a natural number changes it. -/
theorem xor_pow_two_ne (n i : Nat) : n ^^^ 2 ^ i ≠ n := by
  intro h
  have hb := congrArg (fun m => Nat.testBit m i) h
  simp [Nat.testBit_xor, Nat.testBit_two_pow_self] at hb

/-- Decoding succeeds only with the token's own claims. -/
theorem jwt_decode_ok_payload (t : Token) (k : String) (now : Int)
    (p : JwtPayload) (h : jwt_decode t k now = .ok p) : p = t.payload := by
  unfold jwt_decode at h
  split at h
  · exact absurd h (by simp)
  · split at h
    · split at h
      · exact absurd h (by simp)
      · cases h
        rfl
    · cases h
      rfl

set_option maxRecDepth 4000 in
/-- C5 counterexample: a token issued with `ttl = 0` does not immediately
verify as Expired; `timedelta(0)` is falsy, so the token silently gets the
default 30-minute expiry and verifies successfully at issuance time. -/
theorem ttl_zero_not_immediately_expired :
    verify_token defaultSettings
        (create_access_token defaultSettings emptyPayload (some 0) 0) 0
      = .ok { emptyPayload with exp := some 1800, typ := some "access" } := by
  rfl

/-- C5 (amended): verification fails as Expired exactly when the signature
is valid and `exp` has passed; for every signature failure the program
raises AttributeError (PyJWT exports no `jwt.JWTError`, so the except
clause itself fails) and the 401 Invalid outcome is never produced; the
Expired response and the AttributeError are still distinct values; a
single flipped signature bit yields the AttributeError; and a token issued
with `ttl = 0` falls back to the default 30-minute window (`timedelta(0)`
is falsy) and immediately verifies successfully rather than as Expired. -/
theorem verify_token_outcomes :
    (∀ (s : Settings) (t : Token) (now : Int),
        (verify_token s t now = .error (.http 401 "Token has expired") ↔
          t.sig = macSign s.secret_key t.payload
            ∧ ∃ e, t.payload.exp = some e ∧ e ≤ now)
      ∧ (verify_token s t now = .error .attrError ↔
          t.sig ≠ macSign s.secret_key t.payload)
      ∧ verify_token s t now
          ≠ .error (.http 401 "Could not validate credentials"))
  ∧ AuthError.http 401 "Token has expired" ≠ AuthError.attrError
  ∧ (∀ (data : JwtPayload) (now : Int),
        create_access_token defaultSettings data (some 0) now
          = create_access_token defaultSettings data none now
      ∧ (create_access_token defaultSettings data (some 0) now).payload.exp
          = some (now + 1800)
      ∧ verify_token defaultSettings
            (create_access_token defaultSettings data (some 0) now) now
          = .ok { data with exp := some (now + 1800), typ := some "access" })
  ∧ ∀ (s : Settings) (p : JwtPayload) (i : Nat) (now : Int),
        verify_token s ⟨p, macSign s.secret_key p ^^^ 2 ^ i⟩ now
          = .error .attrError := by
  refine ⟨?_, by decide, ?_, ?_⟩
  · intro s t now
    by_cases hsig : t.sig = macSign s.secret_key t.payload
    · cases hexp : t.payload.exp with
      | none => simp [verify_token, jwt_decode, hsig, hexp]
      | some e =>
          by_cases hle : e ≤ now
          · simp [verify_token, jwt_decode, hsig, hexp, hle]
          · refine ⟨?_, ?_, ?_⟩
            · simp only [verify_token, jwt_decode, hsig, hexp]
              simp [hle]
            · simp only [verify_token, jwt_decode, hsig, hexp]
              simp [hle, hsig]
            · simp only [verify_token, jwt_decode, hsig, hexp]
              simp [hle]
    · simp [verify_token, jwt_decode, hsig]
  · intro data now
    refine ⟨by simp [create_access_token, tdTruthy], ?_, ?_⟩
    · simp [create_access_token, tdTruthy, jwt_encode, defaultSettings]
    · have hexp : ¬ (now + 1800 ≤ now) := by omega
      simp [create_access_token, tdTruthy, jwt_encode, verify_token,
        jwt_decode, defaultSettings, hexp]
  · intro s p i now
    simp [verify_token, jwt_decode, xor_pow_two_ne]

/-- C6: any token whose `type` claim is not `"refresh"` is rejected by the
refresh route as Invalid, and a correctly signed, unexpired refresh token
yields an access token whose claims carry only the same subject (plus the
stamped `type` and `exp`) — in particular no scopes. -/
theorem refresh_rejects_nonrefresh_and_narrows :
    (∀ (s : Settings) (t : Token) (now : Int),
        t.payload.typ ≠ some "refresh" →
        refresh_route s t now = .error (.http 401 "Invalid refresh token"))
  ∧ ∀ (s : Settings) (p : JwtPayload) (sub : String) (e now : Int),
        p.typ = some "refresh" → p.sub = some sub → p.exp = some e → now < e →
        refresh_route s ⟨p, macSign s.secret_key p⟩ now
          = .ok (jwt_encode
              ⟨some sub, none, none, none, none, none, some "access",
                some (now + s.access_token_expire_minutes * 60)⟩
              s.secret_key) := by
  constructor
  · intro s t now h
    cases hv : verify_token s t now with
    | error e => simp [refresh_route, refresh_route_inner, hv, bind, Except.bind]
    | ok p =>
        have hp : p = t.payload := by
          unfold verify_token at hv
          cases hd : jwt_decode t s.secret_key now with
          | ok q =>
              rw [hd] at hv
              cases hv
              exact jwt_decode_ok_payload t s.secret_key now _ hd
          | error f =>
              rw [hd] at hv
              cases f <;> simp at hv
        subst hp
        simp [refresh_route, refresh_route_inner, hv, h, bind, Except.bind]
  · intro s p sub e now htyp hsub hexp hnow
    have hle : ¬ e ≤ now := by omega
    simp [refresh_route, refresh_route_inner, verify_token, jwt_decode,
      hexp, hle, htyp, hsub, create_access_token, tdTruthy, jwt_encode,
      bind, Except.bind, pure, Except.pure, emptyPayload]

/-- A concrete access token with scopes, as issued by the OAuth callback. -/
def accessTok : Token :=
  create_access_token defaultSettings
    { emptyPayload with sub := some "alice", scopes := some ["user"] } none 0

/-- Claims of a concrete refresh token for the same subject. -/
def refreshPay : JwtPayload :=
  ⟨some "alice", none, none, none, none, none, some "refresh", some 1000⟩

set_option maxRecDepth 8000 in
/-- Witness for C6: the access token is rejected, the refresh token yields
an access token carrying only the subject. -/
theorem refresh_witness :
    refresh_route defaultSettings accessTok 5
        = .error (.http 401 "Invalid refresh token")
  ∧ refresh_route defaultSettings
        ⟨refreshPay, macSign defaultSettings.secret_key refreshPay⟩ 5
      = .ok (jwt_encode
          ⟨some "alice", none, none, none, none, none, some "access",
            some (5 + defaultSettings.access_token_expire_minutes * 60)⟩
          defaultSettings.secret_key) := by
  constructor
  · exact refresh_rejects_nonrefresh_and_narrows.1 defaultSettings accessTok 5
      (by decide)
  · exact refresh_rejects_nonrefresh_and_narrows.2 defaultSettings refreshPay
      "alice" 1000 5 rfl rfl rfl (by decide)

/-- C7: the mapper's timestamp parser is a total function: `None`/empty
input and every malformed string yield `None`, a trailing literal `Z` is
replaced by an explicit `+00:00` offset before ISO-8601 parsing, and any
other non-empty string is handed to `datetime.fromisoformat` directly,
whose every failure is swallowed. -/
theorem parse_datetime_total_normalization :
    parse_datetime none = none
  ∧ parse_datetime (some "") = none
  ∧ (∀ s : String,
        parse_datetime (some (s ++ "Z")) = parse_datetime (some (s ++ "+00:00")))
  ∧ (∀ s : String, s.data ≠ [] → s.data.getLast? ≠ some 'Z' →
        parse_datetime (some s) = fromisoformat s.data)
  ∧ parse_datetime (some "not-a-date") = none
  ∧ parse_datetime (some "12345") = none
  ∧ parse_datetime (some "2024-01-02T03:04:05Z")
      = some ⟨2024, 1, 2, 3, 4, 5, 0, some 0⟩
  ∧ parse_datetime (some "2024-01-02T03:04:05+01:30")
      = some ⟨2024, 1, 2, 3, 4, 5, 0, some 5400000000⟩ := by
  refine ⟨rfl, rfl, ?_, ?_, by decide, by decide, by decide, by decide⟩
  · intro s
    have hZ : ("Z" : String).data = ['Z'] := rfl
    have hP : ("+00:00" : String).data = ['+', '0', '0', ':', '0', '0'] := rfl
    have h1 : (s ++ "Z").data = s.data ++ ['Z'] := by
      rw [String.data_append, hZ]
    have h2 : (s ++ "+00:00").data = s.data ++ ['+', '0', '0', ':', '0', '0'] := by
      rw [String.data_append, hP]
    have g1 : (s.data ++ ['Z']).getLast? = some 'Z' := List.getLast?_concat _
    have g2 : (s.data ++ ['+', '0', '0', ':', '0', '0']).getLast? = some '0' := by
      rw [List.getLast?_append_of_ne_nil _ (by simp)]
      rfl
    simp [parse_datetime, h1, h2, g1, g2, List.dropLast_concat]
  · intro s hne hnz
    simp [parse_datetime, hne, hnz]

/-- Witness for C7: the direct-parse conjunct applied at a concrete
offset-free timestamp, and the normalization conjunct at a concrete
`Z`-suffixed timestamp. -/
theorem parse_datetime_witness :
    parse_datetime (some "2024-01-02") = fromisoformat ("2024-01-02".data)
  ∧ parse_datetime (some ("2024-06-30T01:02:03" ++ "Z"))
      = parse_datetime (some ("2024-06-30T01:02:03" ++ "+00:00")) := by
  exact ⟨parse_datetime_total_normalization.2.2.2.1 "2024-01-02"
          (by decide) (by decide),
         parse_datetime_total_normalization.2.2.1 "2024-06-30T01:02:03"⟩

/-- A non-empty string is not `isEmpty`. -/
theorem ne_empty_isEmpty_false (s : String) (h : ¬ s = "") : s.isEmpty = false := by
  rw [Bool.eq_false_iff]
  intro hc
  exact h ((String.isEmpty_iff s).mp hc)

/-- Validating a string-valued object built from string pairs restores the
pairs. -/
theorem vStrDict_map_str (l : List (String × String)) :
    vStrDict (.obj (l.map (fun p => (p.1, Json.str p.2)))) = .ok l := by
  induction l with
  | nil => rfl
  | cons a t ih =>
      simp only [vStrDict, List.map_cons] at ih ⊢
      rw [List.mapM_cons, ih]
      simp [bind, Except.bind, pure, Except.pure]

/-- Validating the empty annotations object yields the empty dict. -/
theorem vStrDict_nil : vStrDict (.obj []) = .ok [] := rfl

/-- Cons form of `vStrDict_map_str`, as it appears after reduction. -/
theorem vStrDict_cons_map (a : String × String) (t : List (String × String)) :
    vStrDict (.obj ((a.1, Json.str a.2) :: t.map (fun p => (p.1, Json.str p.2))))
      = .ok (a :: t) :=
  vStrDict_map_str (a :: t)

/-- A spec whose ingress host is present but empty. -/
def wHostEmpty : WorkshopCreate :=
  ⟨"w", "4h", "rocker/rstudio:latest", ⟨"1", "2Gi", "500m", "1Gi"⟩, none,
   some ⟨some "", []⟩⟩

set_option maxRecDepth 4000 in
/-- C1 counterexample: a spec with `ingress.host = ""` (present, not
absent) does not round-trip — the empty host is falsy, omitted from the
wire document, and parsed back as absent. -/
theorem roundtrip_drops_present_empty_host :
    parse_spec (crdSpecBlock (to_kubernetes_crd wHostEmpty "default"))
      = .ok ⟨"w", "4h", "rocker/rstudio:latest", ⟨"1", "2Gi", "500m", "1Gi"⟩,
             none, some ⟨none, []⟩⟩
  ∧ parse_spec (crdSpecBlock (to_kubernetes_crd wHostEmpty "default"))
      ≠ .ok wHostEmpty :=
  ⟨by decide, by decide⟩

/-- C1 (amended): mapping a spec to the wire document and parsing the
spec block back restores `name`, `duration`, `image`, `cpu`, `memory`,
the presence of `storage` with its `size`, and the whole `ingress` block
(provided a present `host` is non-empty — a falsy host is omitted on the
wire and returns absent); `cpuRequest` and `memoryRequest` always come
back as the defaults `"500m"`/`"1Gi"` and `storageClass` always comes
back absent, because pydantic populates those aliased fields only via
their aliases and ignores `_parse_spec`'s by-field-name kwargs. -/
theorem spec_roundtrip_modulo_falsy_optionals (w : WorkshopCreate) (ns : String)
    (hin : match w.ingress with
           | some ing => ing.host ≠ some ""
           | none => True) :
    parse_spec (crdSpecBlock (to_kubernetes_crd w ns))
      = .ok ⟨w.name, w.duration, w.image,
             ⟨w.resources.cpu, w.resources.memory, "500m", "1Gi"⟩,
             w.storage.map (fun st => ⟨st.size, none⟩),
             w.ingress⟩ := by
  obtain ⟨nm, du, im, ⟨rc, rm, rcr, rmr⟩, st, ing⟩ := w
  rcases st with _ | ⟨size, sc⟩
  all_goals rcases ing with _ | ⟨host, ann⟩
  all_goals try rcases sc with _ | sc
  all_goals try rcases host with _ | host
  all_goals try rcases ann with _ | ⟨a, t⟩
  all_goals
    simp_all [to_kubernetes_crd, crdSpecBlock, parse_spec, asDict, lookupField,
      Json.hasKey, vStr, vReqStr, vOptStr, vStrDict_nil, vStrDict_cons_map,
      ne_empty_isEmpty_false, bind, Except.bind, pure, Except.pure]

/-- A fully-populated spec with non-empty optional sub-fields. -/
def wSample : WorkshopCreate :=
  ⟨"w1", "4h", "img", ⟨"2", "4Gi", "1", "2Gi"⟩,
   some ⟨"20Gi", some "fast"⟩, some ⟨some "h.example", [("a", "b")]⟩⟩

set_option maxRecDepth 4000 in
/-- Witness for C1 (amended) at a fully-populated concrete spec: the wire
`cpuRequest="1"`, `memoryRequest="2Gi"`, `storageClass="fast"` are read
but ignored, so the parse returns the defaulted resource requests and an
absent storage class. -/
theorem spec_roundtrip_witness :
    parse_spec (crdSpecBlock (to_kubernetes_crd wSample "ns1"))
      = .ok ⟨"w1", "4h", "img", ⟨"2", "4Gi", "500m", "1Gi"⟩,
             some ⟨"20Gi", none⟩, some ⟨some "h.example", [("a", "b")]⟩⟩ :=
  spec_roundtrip_modulo_falsy_optionals wSample "ns1"
    (show some "h.example" ≠ some "" by decide)

/-- A wire document with well-formed metadata but an empty spec block and
no status. -/
def docEmptySpec : Json :=
  .obj [("metadata", .obj [("name", .str "w"), ("namespace", .str "default")]),
        ("spec", .obj [])]

/-- C2 counterexample: with an empty spec block the mapper does not yield
a defaulted Workshop at all — `spec.get("name")` is `None` and the
required `name` field of `WorkshopCreate` fails pydantic validation, so
the call raises. -/
theorem fromDocument_empty_spec_raises :
    from_kubernetes_crd docEmptySpec = .error .validation := by
  decide

/-- C2 (amended): for a spec block carrying only the required `name` and
an absent status, the documented defaults are applied (`cpu="1"`,
`memory="2Gi"`, `cpuRequest="500m"`, `memoryRequest="1Gi"`,
`duration="4h"`, default image) and the result's status is `None`; a
present truthy status block — even the minimal `{"conditions": []}` —
always raises ValidationError instead (the required alias-only
`createdAt`/`expiresAt` fields of `WorkshopStatus` are never populated),
so no `Pending` phase ever reaches a response. -/
theorem fromDocument_minimal_spec_defaults (nm ns n : String) :
    from_kubernetes_crd
        (.obj [("metadata", .obj [("name", .str nm), ("namespace", .str ns)]),
               ("spec", .obj [("name", .str n)])])
      = .ok ⟨nm, ns, ⟨n, "4h", "rocker/rstudio:latest",
              ⟨"1", "2Gi", "500m", "1Gi"⟩, none, none⟩, none, none, none⟩
  ∧ from_kubernetes_crd
        (.obj [("metadata", .obj [("name", .str nm), ("namespace", .str ns)]),
               ("spec", .obj [("name", .str n)]),
               ("status", .obj [("conditions", .arr [])])])
      = .error .validation := by
  constructor <;>
    simp [from_kubernetes_crd, parse_spec, asDict, lookupField, Json.hasKey,
      Json.truthy, pyIter, parsePhase, parse_datetime_j, vStr, vReqStr,
      vOptStr, bind, Except.bind, pure, Except.pure, List.mapM.loop]

/-- C8: the produced wire document always carries `apiVersion`,
`kind="Workshop"`, `metadata` with name/namespace and the fixed management
labels, and a camelCase spec block; the `storage` and `ingress` blocks are
present exactly when the domain fields are, an absent `storageClass` is
omitted entirely (no key, hence no null), and no `status` key is ever
written. -/
theorem toDocument_shape (w : WorkshopCreate) (ns : String) :
    topLookup (to_kubernetes_crd w ns) "apiVersion"
        = some (.str "orchestra.io/v1")
  ∧ topLookup (to_kubernetes_crd w ns) "kind" = some (.str "Workshop")
  ∧ topLookup (to_kubernetes_crd w ns) "metadata"
      = some (.obj [("name", .str w.name), ("namespace", .str ns),
          ("labels", .obj [("app", .str "orchestra-operator"),
                           ("managed-by", .str "orchestra-api")])])
  ∧ topLookup (crdSpecBlock (to_kubernetes_crd w ns)) "name"
      = some (.str w.name)
  ∧ topLookup (crdSpecBlock (to_kubernetes_crd w ns)) "duration"
      = some (.str w.duration)
  ∧ topLookup (crdSpecBlock (to_kubernetes_crd w ns)) "image"
      = some (.str w.image)
  ∧ topLookup (crdSpecBlock (to_kubernetes_crd w ns)) "resources"
      = some (.obj [("cpu", .str w.resources.cpu),
          ("memory", .str w.resources.memory),
          ("cpuRequest", .str w.resources.cpu_request),
          ("memoryRequest", .str w.resources.memory_request)])
  ∧ (crdSpecBlock (to_kubernetes_crd w ns)).hasKey "storage" = w.storage.isSome
  ∧ (crdSpecBlock (to_kubernetes_crd w ns)).hasKey "ingress" = w.ingress.isSome
  ∧ (∀ st, w.storage = some st → st.storage_class = none →
        topLookup (crdSpecBlock (to_kubernetes_crd w ns)) "storage"
          = some (.obj [("size", .str st.size)]))
  ∧ (to_kubernetes_crd w ns).hasKey "status" = false := by
  obtain ⟨nm, du, im, ⟨rc, rm, rcr, rmr⟩, st, ing⟩ := w
  rcases st with _ | ⟨size, _ | sc⟩ <;> rcases ing with _ | ⟨host, ann⟩ <;>
    simp [to_kubernetes_crd, crdSpecBlock, topLookup, lookupField, Json.hasKey]

/-- Witness for C8 at a concrete spec with storage present and
`storage_class` absent. -/
theorem toDocument_shape_witness :
    topLookup (crdSpecBlock (to_kubernetes_crd
        ⟨"w", "4h", "img", ⟨"1", "2Gi", "500m", "1Gi"⟩,
         some ⟨"10Gi", none⟩, none⟩ "default")) "storage"
      = some (.obj [("size", .str "10Gi")]) :=
  (toDocument_shape
    ⟨"w", "4h", "img", ⟨"1", "2Gi", "500m", "1Gi"⟩, some ⟨"10Gi", none⟩, none⟩
    "default").2.2.2.2.2.2.2.2.2.1 ⟨"10Gi", none⟩ rfl rfl

/-- The datetime call sites are transparent on string values: parsing a
string JSON value is exactly `_parse_datetime` on that string. -/
theorem parse_datetime_j_str (s : String) :
    parse_datetime_j (some (.str s)) = .ok (parse_datetime (some s)) := by
  by_cases h : s = ""
  · subst h
    rfl
  · have hf : s.isEmpty = false := ne_empty_isEmpty_false s h
    have hd : s.data ≠ [] := by
      intro hc
      exact h (by
        have := congrArg String.mk hc
        simpa using this)
    simp [parse_datetime_j, Json.truthy, hf, parse_datetime, hd]

/-- C9: whenever the mapper succeeds, the response's `updated_at` is the
ISO-8601 parse of `metadata.resourceVersion`; in particular it is `None`
for every document whose `resourceVersion` string is not itself a
parseable ISO-8601 timestamp. -/
theorem updated_at_from_resourceVersion (crd : Json) (w : WorkshopResponse)
    (h : from_kubernetes_crd crd = .ok w) :
    parse_datetime_j (crdResourceVersion crd) = .ok w.updated_at
  ∧ ∀ s, crdResourceVersion crd = some (.str s) →
      parse_datetime (some s) = none → w.updated_at = none := by
  have key : parse_datetime_j (crdResourceVersion crd) = .ok w.updated_at := by
    cases crd with
    | null =>
        exact absurd h (by simp [from_kubernetes_crd, asDict, bind, Except.bind])
    | str s =>
        exact absurd h (by simp [from_kubernetes_crd, asDict, bind, Except.bind])
    | arr xs =>
        exact absurd h (by simp [from_kubernetes_crd, asDict, bind, Except.bind])
    | obj cfs =>
        simp only [from_kubernetes_crd, asDict, bind, Except.bind] at h
        repeat' split at h
        all_goals try (cases h)
        all_goals simp only [crdResourceVersion]
        all_goals split <;> simp_all
  refine ⟨key, ?_⟩
  intro s hs hp
  rw [hs, parse_datetime_j_str, hp] at key
  injection key with k
  exact k.symm

/-- A document whose resourceVersion is the usual opaque numeric string. -/
def docRv : Json :=
  .obj [("metadata", .obj [("name", .str "a"), ("namespace", .str "b"),
          ("resourceVersion", .str "12345")]),
        ("spec", .obj [("name", .str "a")])]

/-- The workshop the mapper produces for `docRv`. -/
def wRv : WorkshopResponse :=
  ⟨"a", "b", ⟨"a", "4h", "rocker/rstudio:latest", ⟨"1", "2Gi", "500m", "1Gi"⟩,
    none, none⟩, none, none, none⟩

/-- Witness for C9: `resourceVersion = "12345"` maps successfully with
`updated_at = None`. -/
theorem updated_at_witness :
    wRv.updated_at = none ∧ from_kubernetes_crd docRv = .ok wRv :=
  ⟨(updated_at_from_resourceVersion docRv wRv (by decide)).2 "12345" rfl
     (by decide),
   by decide⟩

/-- Sequenced mapping over `Except` cannot succeed when any element of the
list fails. -/
theorem mapM_ne_ok_of_mem_error {α β : Type} (f : α → Except PyError β)
    (l : List α) (x : α) (e : PyError) (hx : x ∈ l) (hf : f x = .error e) :
    ∀ ys, l.mapM f ≠ .ok ys := by
  induction l with
  | nil => cases hx
  | cons a t ih =>
      intro ys hok
      rw [List.mapM_cons] at hok
      cases List.mem_cons.mp hx with
      | inl heq =>
          subst heq
          simp [hf, bind, Except.bind] at hok
      | inr hm =>
          cases hfa : f a with
          | error e2 => simp [hfa, bind, Except.bind] at hok
          | ok b =>
              cases hmt : t.mapM f with
              | error e3 =>
                  simp only [List.mapM] at hmt
                  simp [hfa, hmt, bind, Except.bind, pure, Except.pure] at hok
              | ok ys2 => exact ih hm ys2 hmt

/-- C10: the service's list call maps every item of the backend document
in order through the document mapper, all-or-nothing — it equals the
sequenced traversal of the items, and a single failing item (for example
an unknown phase string or a spec missing the required name) makes the
whole call raise; no item is skipped, no partial list is returned. -/
theorem list_maps_each_item (fs : List (String × Json)) (items : List Json)
    (hitems : lookupField fs "items" = some (.arr items)) :
    list_workshops (.ok (.obj fs))
        = Except.mapError SvcError.py (items.mapM from_kubernetes_crd)
  ∧ ∀ it e, it ∈ items → from_kubernetes_crd it = .error e →
      ∀ ws, list_workshops (.ok (.obj fs)) ≠ .ok ws := by
  have part1 : list_workshops (.ok (.obj fs))
      = Except.mapError SvcError.py (items.mapM from_kubernetes_crd) := by
    simp only [list_workshops, asDict, bind, Except.bind, hitems,
      Option.getD, pyIter]
    cases hm : items.mapM from_kubernetes_crd <;>
      simp [hm, Except.mapError]
  refine ⟨part1, ?_⟩
  intro it e hmem hf ws hok
  rw [part1] at hok
  cases hm : items.mapM from_kubernetes_crd with
  | error e2 =>
      simp only [List.mapM] at hm
      simp [hm, Except.mapError] at hok
  | ok ys => exact mapM_ne_ok_of_mem_error from_kubernetes_crd items it e hmem hf ys hm

/-- A well-formed backend list item. -/
def docGoodItem : Json :=
  .obj [("metadata", .obj [("name", .str "g"), ("namespace", .str "d")]),
        ("spec", .obj [("name", .str "g")])]

/-- An item whose status phase is outside the six enumerated values. -/
def docBadPhase : Json :=
  .obj [("metadata", .obj [("name", .str "p"), ("namespace", .str "d")]),
        ("spec", .obj [("name", .str "p")]),
        ("status", .obj [("phase", .str "Bogus")])]

/-- An item whose spec block is missing the required name. -/
def docNoName : Json :=
  .obj [("metadata", .obj [("name", .str "q"), ("namespace", .str "d")]),
        ("spec", .obj [])]

/-- Witness for C10: a list with one good item and one malformed item
raises as a whole, for both failure shapes named in the claim. -/
theorem list_all_or_nothing_witness :
    list_workshops (.ok (.obj [("items", .arr [docGoodItem, docBadPhase])]))
        = .error (.py .valueError)
  ∧ list_workshops (.ok (.obj [("items", .arr [docGoodItem, docNoName])]))
        = .error (.py .validation) := by
  constructor
  · rw [(list_maps_each_item [("items", .arr [docGoodItem, docBadPhase])]
      [docGoodItem, docBadPhase] rfl).1]
    decide
  · rw [(list_maps_each_item [("items", .arr [docGoodItem, docNoName])]
      [docGoodItem, docNoName] rfl).1]
    decide
